import Mathlib

/-!
# Verification of the ProxyRules generator core

Shallow embedding of the node-classification, region-aggregation,
proxy-group-composition and rule-URL-resolution logic of the repository
(`Generator/core/node_parser.py`, `Generator/core/proxy_groups.py`,
`Generator/core/rule_loader.py`, and the proxy-group portion of
`Generator/generators/mihomo_generator.py`), together with theorems
settling the specification claims about that logic.

Strings are modelled by Lean `String` (a wrapper around `List Char`),
and the repository's regular expressions — all of which are
`(?i)`-prefixed alternations of literal substrings — are modelled by a
case-insensitive any-alternative-is-a-substring check.
-/

/-! ## Character/string utilities (kernel-reducible replacements for the
Python string operations used by the source) -/

/-- Lowercase every character of a list (models Python case-insensitive
matching for the ASCII letters occurring in the patterns). -/
def lowerL (l : List Char) : List Char := l.map Char.toLower

/-- `startsWithL pat l` is true iff `pat` is an initial segment of `l`
(models `str.startswith` / the prefix step of substring search). -/
def startsWithL : List Char → List Char → Bool
  | [], _ => true
  | _ :: _, [] => false
  | a :: as, b :: bs => a == b && startsWithL as bs

/-- `containsSeq pat l` is true iff `pat` occurs as a contiguous
subsequence of `l` (models `re.search` for a literal pattern and the
Python `in` operator on strings). -/
def containsSeq (pat : List Char) : List Char → Bool
  | [] => pat.isEmpty
  | c :: t => startsWithL pat (c :: t) || containsSeq pat t

/-- Split a character list at every occurrence of the bar character
(models `str.split` on the alternation separator of a regex). -/
def splitOnPipe : List Char → List (List Char)
  | [] => [[]]
  | c :: t =>
    let r := splitOnPipe t
    if c == '|' then [] :: r
    else
      match r with
      | [] => [[c]]
      | h :: t2 => (c :: h) :: t2

/-- Fuel-driven replacement of every occurrence of `pat` by `repl`
(models Python `str.replace` for a non-empty pattern; the fuel is
instantiated with the length of the subject, which suffices because
every step consumes at least one character). -/
def replaceFuel (pat repl : List Char) : Nat → List Char → List Char
  | _, [] => []
  | 0, l => l
  | fuel + 1, c :: t =>
    if startsWithL pat (c :: t) && !pat.isEmpty then
      repl ++ replaceFuel pat repl fuel ((c :: t).drop pat.length)
    else
      c :: replaceFuel pat repl fuel t

/-- Models Python `s.replace(pat, repl)` for the non-empty literal
patterns used by the source. -/
def replaceStr (s pat repl : String) : String :=
  ⟨replaceFuel pat.data repl.data s.data.length s.data⟩

/-- Everything before the last dot of a character list
(models `s.rsplit('.', 1)[0]`, used only when a dot is present). -/
def dropAfterLastDot (l : List Char) : List Char :=
  (((l.reverse.dropWhile (fun c => !(c == '.'))).drop 1)).reverse

/-- Shallow model of Python `re.search(pattern, s)` for the patterns of
this repository, which are all `(?i)`-prefixed alternations of literal
substrings: the `(?i)` marker is stripped (exactly as the source does
with `.replace('(?i)', '')` when it manipulates pattern text), the
pattern is split at `|`, and the search succeeds iff some alternative is
a case-insensitive substring of `s`. -/
def regexSearch (pattern : String) (s : String) : Bool :=
  (splitOnPipe (replaceStr pattern "(?i)" "").data).any
    (fun kw => containsSeq (lowerL kw) (lowerL s.data))

/-! ## `Generator/core/node_parser.py` -/

/-- One entry of `NodeParser.COUNTRIES_META`: a region name with its
match pattern and icon URL. -/
structure CountryMeta where
  name : String
  pattern : String
  icon : String
deriving DecidableEq

/-- `NodeParser.COUNTRIES_META` (static table; insertion order is the
priority order). -/
def COUNTRIES_META : List CountryMeta :=
  [ { name := "香港",
      pattern := "(?i)香港|港|HK|hk|Hong Kong|HongKong|hongkong|🇭🇰",
      icon := "https://testingcf.jsdelivr.net/gh/Koolson/Qure@master/IconSet/Color/Hong_Kong.png" },
    { name := "台湾",
      pattern := "(?i)台|新北|彰化|TW|Taiwan|🇹🇼",
      icon := "https://testingcf.jsdelivr.net/gh/Koolson/Qure@master/IconSet/Color/Taiwan.png" },
    { name := "美国",
      pattern := "(?i)美国|美|US|United States|🇺🇸",
      icon := "https://testingcf.jsdelivr.net/gh/Koolson/Qure@master/IconSet/Color/United_States.png" },
    { name := "日本",
      pattern := "(?i)日本|川日|东京|大阪|泉日|埼玉|沪日|深日|JP|Japan|🇯🇵",
      icon := "https://testingcf.jsdelivr.net/gh/Koolson/Qure@master/IconSet/Color/Japan.png" },
    { name := "新加坡",
      pattern := "(?i)新加坡|坡|狮城|SG|Singapore|🇸🇬",
      icon := "https://testingcf.jsdelivr.net/gh/Koolson/Qure@master/IconSet/Color/Singapore.png" } ]

/-- `NodeParser.ISP_EXCLUDE_PATTERN`. -/
def ISP_EXCLUDE_PATTERN : String := "(?i)家宽|家庭|家庭宽带|商宽|商业宽带|星链|Starlink|落地"

/-- `NodeParser.identify_country`.  Returns `none` for a node that the
ISP filter excludes (the Python code returns `None` to mark the
"excluded" outcome), otherwise the first region of the static table
whose pattern matches, otherwise the sentinel `"其他"` ("other"). -/
def identify_country (node_name : String) (exclude_isp : Bool) : Option String :=
  if exclude_isp && regexSearch ISP_EXCLUDE_PATTERN node_name then
    none
  else
    match COUNTRIES_META.find? (fun m => regexSearch m.pattern node_name) with
    | some m => some m.name
    | none => some "其他"

/-- Increment the count stored under key `k` of an insertion-ordered
association list, appending the key with count 1 when absent (models
`country_counts[country] = country_counts.get(country, 0) + 1` on a
Python dict, which preserves insertion order). -/
def bumpCount (m : List (String × Nat)) (k : String) : List (String × Nat) :=
  match m with
  | [] => [(k, 1)]
  | (k2, v) :: t => if k2 == k then (k2, v + 1) :: t else (k2, v) :: bumpCount t k

/-- Count lookup with default 0 (models `dict.get(key, 0)`). -/
def countGet (m : List (String × Nat)) (k : String) : Nat :=
  match m.find? (fun p => p.1 == k) with
  | some p => p.2
  | none => 0

/-- `NodeParser.parse_nodes`: classify every name and count per region,
dropping the excluded (`none`) outcomes. -/
def parse_nodes (node_names : List String) (exclude_isp : Bool) : List (String × Nat) :=
  node_names.foldl
    (fun acc n =>
      match identify_country n exclude_isp with
      | none => acc
      | some c => bumpCount acc c)
    []

/-- The dataclass `CountryInfo`. -/
structure CountryInfo where
  name : String
  count : Nat
  pattern : String
  icon_url : String
deriving DecidableEq

/-- Icon used for the "other" region. -/
def GLOBAL_ICON : String :=
  "https://testingcf.jsdelivr.net/gh/Koolson/Qure@master/IconSet/Color/Global.png"

/-- `NodeParser._generate_other_pattern`: the synthesized
negative-lookahead pattern for the "other" region. -/
def generate_other_pattern : String :=
  let exclude_patterns :=
    "家宽|家庭|家庭宽带|商宽|商业宽带|星链|Starlink|落地" ::
      COUNTRIES_META.map (fun m => replaceStr m.pattern "(?i)" "")
  "^(?!.*(" ++ String.intercalate "|" exclude_patterns ++ ")).*$"

/-- The `CountryInfo(...)` construction performed for a region of the
static table inside `get_country_info_list`. -/
def toInfo (counts : List (String × Nat)) (m : CountryMeta) : CountryInfo :=
  { name := m.name, count := countGet counts m.name,
    pattern := m.pattern, icon_url := m.icon }

/-- `NodeParser.get_country_info_list`: an ordered summary per region of
the static table whose count reaches `min_count`, followed by an "other"
summary exactly when the "other" count is positive. -/
def get_country_info_list (node_names : List String) (exclude_isp : Bool)
    (min_count : Nat) : List CountryInfo :=
  let counts := parse_nodes node_names exclude_isp
  let named :=
    (COUNTRIES_META.filter (fun m => decide (min_count ≤ countGet counts m.name))).map
      (toInfo counts)
  let other_count := countGet counts "其他"
  if 0 < other_count then
    named ++
      [{ name := "其他", count := other_count,
         pattern := generate_other_pattern, icon_url := GLOBAL_ICON }]
  else
    named

/-- `NodeParser.get_country_group_names` (suffix fixed to the source's
default `"节点"`, the only suffix the repository uses). -/
def get_country_group_names (node_names : List String) (exclude_isp : Bool)
    (min_count : Nat) : List String :=
  (get_country_info_list node_names exclude_isp min_count).map
    (fun info => info.name ++ "节点")

example : identify_country "香港 IEPL 01" true = some "香港" := by decide
example : identify_country "香港家宽落地 01" true = none := by decide
example : identify_country "Tokyo 01" true = some "其他" := by decide
example : identify_country "美国 JP 01" true = some "美国" := by decide
example :
    (get_country_info_list ["香港 01", "香港 02", "东京 01", "香港家宽落地 01"] true 2).map
      (fun i => (i.name, i.count)) = [("香港", 2)] := by decide

/-! ## `Generator/core/proxy_groups.py` -/

/-- One generated proxy-group configuration dictionary.  The Python code
builds heterogeneous dicts; each optional key is modelled as an `Option`
field (or a `Bool` for the `include-all` flag), absent keys being `none`
(resp. `false`).  `yamlAnchor`/`yamlReference` model the bookkeeping
keys `_yaml_anchor`/`_yaml_reference`. -/
structure ProxyGroup where
  name : String
  icon : String
  type : String
  proxies : Option (List String)
  includeAll : Bool
  filter : Option String
  excludeFilter : Option String
  url : Option String
  interval : Option Nat
  tolerance : Option Nat
  lazy : Option Bool
  yamlAnchor : Option String
  yamlReference : Option String
deriving DecidableEq

/-- `ProxyGroupsGenerator.ICON_CDN`. -/
def ICON_CDN : String := "https://cdn.jsdelivr.net/gh"

/-- `ProxyGroupsGenerator._get_icon_url`. -/
def get_icon_url (icon_path : String) : String := ICON_CDN ++ "/" ++ icon_path

/-- Helper building the plain `select`-typed policy/base group dicts
(`name`, `icon`, `type: select`, optional `proxies`, optional
`include-all`, optional anchor/reference keys); every other key absent. -/
def mkSelect (name icon : String) (proxies : Option (List String))
    (includeAll : Bool) (anchor ref : Option String) : ProxyGroup :=
  { name := name, icon := icon, type := "select", proxies := proxies,
    includeAll := includeAll, filter := none, excludeFilter := none,
    url := none, interval := none, tolerance := none, lazy := none,
    yamlAnchor := anchor, yamlReference := ref }

/-- `ProxyGroupsGenerator._generate_exclude_filter_pattern`. -/
def generate_exclude_filter_pattern : String :=
  "(?i)" ++
    String.intercalate "|" (COUNTRIES_META.map (fun m => replaceStr m.pattern "(?i)" ""))

/-- `ProxyGroupsGenerator.generate_country_groups`. -/
def generate_country_groups (country_info_list : List CountryInfo)
    (group_type : String) : List ProxyGroup :=
  country_info_list.map (fun info =>
    if info.name == "其他" then
      { name := "其他节点",
        icon := "https://testingcf.jsdelivr.net/gh/Koolson/Qure@master/IconSet/Color/Global.png",
        type := "select", proxies := none, includeAll := true,
        filter := none, excludeFilter := some generate_exclude_filter_pattern,
        url := none, interval := none, tolerance := none, lazy := none,
        yamlAnchor := none, yamlReference := none }
    else if group_type == "url-test" then
      { name := info.name ++ "节点", icon := info.icon_url,
        type := group_type, proxies := none, includeAll := true,
        filter := some info.pattern, excludeFilter := none,
        url := some "https://cp.cloudflare.com/generate_204",
        interval := some 60, tolerance := some 20, lazy := some false,
        yamlAnchor := none, yamlReference := none }
    else
      { name := info.name ++ "节点", icon := info.icon_url,
        type := group_type, proxies := none, includeAll := true,
        filter := some info.pattern, excludeFilter := none,
        url := none, interval := none, tolerance := none, lazy := none,
        yamlAnchor := none, yamlReference := none })

/-- `ProxyGroupsGenerator.generate_base_groups`. -/
def generate_base_groups (country_group_names : List String) : List ProxyGroup :=
  [ mkSelect "选择代理" (get_icon_url "Koolson/Qure@master/IconSet/Color/Proxy.png")
      (some (country_group_names ++ ["手动选择", "DIRECT"])) false none none,
    mkSelect "手动选择" (get_icon_url "Koolson/Qure@master/IconSet/Color/Round_Robin_1.png")
      none true none none ]

/-- `ProxyGroupsGenerator.generate_policy_groups`: the fixed ordered
catalog of 22 policy groups, three of which (US/Taiwan/Japan Media)
swap to a short-circuit member list when the corresponding region group
is present among `country_group_names`. -/
def generate_policy_groups (country_group_names : List String) : List ProxyGroup :=
  let default_proxies := "选择代理" :: country_group_names ++ ["手动选择", "直接连接"]
  let has_tw := country_group_names.contains "台湾节点"
  let has_us := country_group_names.contains "美国节点"
  let has_jp := country_group_names.contains "日本节点"
  [ mkSelect "AI" (get_icon_url "Koolson/Qure@master/IconSet/Color/AI.png")
      (some default_proxies) false (some "a1") none,
    mkSelect "Telegram" (get_icon_url "Koolson/Qure@master/IconSet/Color/Telegram.png")
      (some default_proxies) false none (some "a1"),
    mkSelect "YouTube" (get_icon_url "Koolson/Qure@master/IconSet/Color/YouTube.png")
      (some default_proxies) false none (some "a1"),
    mkSelect "Netflix" (get_icon_url "Koolson/Qure@master/IconSet/Color/Netflix.png")
      (some default_proxies) false none (some "a1"),
    mkSelect "Spotify" (get_icon_url "Koolson/Qure@master/IconSet/Color/Spotify.png")
      (some default_proxies) false none (some "a1"),
    mkSelect "TikTok" (get_icon_url "Koolson/Qure@master/IconSet/Color/TikTok.png")
      (some default_proxies) false none (some "a1"),
    mkSelect "Steam" (get_icon_url "Koolson/Qure@master/IconSet/Color/Steam.png")
      (some default_proxies) false none (some "a1"),
    mkSelect "Game" (get_icon_url "Koolson/Qure@master/IconSet/Color/Game.png")
      (some default_proxies) false none (some "a1"),
    mkSelect "E-Hentai" (get_icon_url "PianCat/CustomProxyRuleset@main/Icons/Ehentai.png")
      (some default_proxies) false none (some "a1"),
    mkSelect "PornSite" (get_icon_url "Koolson/Qure@master/IconSet/Color/Pornhub.png")
      (some default_proxies) false none (some "a1"),
    (if has_us then
      mkSelect "US Media" (get_icon_url "Koolson/Qure@master/IconSet/Color/United_States.png")
        (some ["美国节点", "选择代理", "手动选择", "直接连接"]) false none none
    else
      mkSelect "US Media" (get_icon_url "Koolson/Qure@master/IconSet/Color/United_States.png")
        (some default_proxies) false none (some "a1")),
    (if has_tw then
      mkSelect "Taiwan Media" (get_icon_url "Koolson/Qure@master/IconSet/Color/Taiwan.png")
        (some ["台湾节点", "选择代理", "手动选择", "直接连接"]) false none none
    else
      mkSelect "Taiwan Media" (get_icon_url "Koolson/Qure@master/IconSet/Color/Taiwan.png")
        (some default_proxies) false none (some "a1")),
    (if has_jp then
      mkSelect "Japan Media" (get_icon_url "Koolson/Qure@master/IconSet/Color/Japan.png")
        (some ["日本节点", "选择代理", "手动选择", "直接连接"]) false none none
    else
      mkSelect "Japan Media" (get_icon_url "Koolson/Qure@master/IconSet/Color/Japan.png")
        (some default_proxies) false none (some "a1")),
    mkSelect "Global Media" (get_icon_url "Koolson/Qure@master/IconSet/Color/DomesticMedia.png")
      (some default_proxies) false none (some "a1"),
    mkSelect "Apple" (get_icon_url "Koolson/Qure@master/IconSet/Color/Apple.png")
      (some (["直接连接", "选择代理"] ++ country_group_names ++ ["手动选择"])) false none none,
    mkSelect "Microsoft" (get_icon_url "Koolson/Qure@master/IconSet/Color/Microsoft.png")
      (some (["直接连接", "选择代理"] ++ country_group_names ++ ["手动选择"])) false none none,
    mkSelect "Google" (get_icon_url "Koolson/Qure@master/IconSet/Color/Google_Search.png")
      (some default_proxies) false none (some "a1"),
    mkSelect "Google FCM" (get_icon_url "PianCat/CustomProxyRuleset@main/Icons/Firebase.png")
      (some ["Google", "直接连接"]) false none none,
    mkSelect "Sogou Privacy" (get_icon_url "PianCat/CustomProxyRuleset@main/Icons/Sougou.png")
      (some ["直接连接", "REJECT"]) false none none,
    mkSelect "ADBlock" (get_icon_url "Koolson/Qure@master/IconSet/Color/AdBlack.png")
      (some ["REJECT-DROP", "REJECT", "直接连接"]) false none none,
    mkSelect "直接连接" (get_icon_url "Koolson/Qure@master/IconSet/Color/Direct.png")
      (some ["DIRECT", "选择代理"]) false none none,
    mkSelect "GLOBAL" (get_icon_url "Koolson/Qure@master/IconSet/Color/Global.png")
      (some default_proxies) true none (some "a1") ]

/-- The composition step of `ProxyGroupsGenerator.generate_all_groups`
(base tier, then policy tier, then region tier) applied to a given
region-summary list. -/
def compose_groups (country_info_list : List CountryInfo) : List ProxyGroup :=
  let country_group_names := country_info_list.map (fun info => info.name ++ "节点")
  generate_base_groups country_group_names ++
    generate_policy_groups country_group_names ++
    generate_country_groups country_info_list "url-test"

/-- `ProxyGroupsGenerator.generate_all_groups`: parse the node list
(excluding ISP nodes, threshold `min_country_nodes`) and compose the
full catalog from the resulting summaries. -/
def generate_all_groups (node_names : List String) (min_country_nodes : Nat) :
    List ProxyGroup :=
  compose_groups (get_country_info_list node_names true min_country_nodes)

/-! ## Proxy-group portion of
`Generator/generators/mihomo_generator.py::generate_yaml_config` -/

/-- The fixed default region names substituted by the Mihomo generator
when the node list is empty. -/
def default_country_names : List String := ["香港", "台湾", "新加坡", "日本", "美国"]

/-- The default region-summary placeholders (five regions at count 0,
plus "other") built by the Mihomo generator when the node list is
empty. -/
def mihomo_default_country_info : List CountryInfo :=
  (default_country_names.filterMap (fun n =>
    (COUNTRIES_META.find? (fun m => m.name == n)).map (fun m =>
      { name := n, count := 0, pattern := m.pattern, icon_url := m.icon }))) ++
  [{ name := "其他", count := 0, pattern := generate_other_pattern,
     icon_url := GLOBAL_ICON }]

/-- The `proxy-groups` value computed by
`MihomoGenerator.generate_yaml_config`: composed from the parsed node
list when it is non-empty, otherwise from the fixed default region
placeholders. -/
def mihomo_proxy_groups (node_names : List String) : List ProxyGroup :=
  if node_names.isEmpty then
    let names := default_country_names.map (fun n => n ++ "节点") ++ ["其他节点"]
    generate_base_groups names ++
      generate_policy_groups names ++
      generate_country_groups mihomo_default_country_info "url-test"
  else
    generate_all_groups node_names 2

set_option maxRecDepth 4000

example : (mihomo_proxy_groups []).length = 30 := by decide
example : mihomo_proxy_groups [] = compose_groups mihomo_default_country_info := by decide
example : (generate_all_groups [] 2).length = 24 := by decide

/-! ## `Generator/core/rule_loader.py` -/

/-- The parts of a rule entry that `generate_rule_url` reads: the
`category` key (absent/`None` modelled as `none`) and the `remotefile`
key (the source defaults it to `''`). -/
structure RuleConfig where
  category : Option String
  remotefile : String
deriving DecidableEq

/-- The tables a `RuleLoader` extracts from `RemoteRulesLinkBase.yaml`:
`Categories` (category name to its `url` template, the source reading
`self.categories[category].get('url', '')` — a category entry without a
`url` key is modelled as mapping to `""`), `Categories_Tools_List` and
`Categories_Filetype_List` (category name to an inner tool-to-alias
dictionary, in which `"fallback"` is an ordinary key). -/
structure LinkBase where
  categories : List (String × String)
  toolsMapping : List (String × List (String × String))
  filetypeMapping : List (String × List (String × String))
deriving DecidableEq

/-- Association-list lookup (models Python dict indexing / `in`). -/
def lookupA {α : Type} (l : List (String × α)) (k : String) : Option α :=
  (l.find? (fun p => p.1 == k)).map Prod.snd

/-- `RuleLoader.get_tool_type_mapping`. -/
def get_tool_type_mapping (L : LinkBase) (category proxy_tool : String) : String :=
  match lookupA L.toolsMapping category with
  | none => proxy_tool
  | some mapping =>
    match lookupA mapping proxy_tool with
    | some v => v
    | none => (lookupA mapping "fallback").getD proxy_tool

/-- `RuleLoader.get_filetype_mapping`. -/
def get_filetype_mapping (L : LinkBase) (category proxy_tool : String) : String :=
  match lookupA L.filetypeMapping category with
  | none => ""
  | some mapping =>
    match lookupA mapping proxy_tool with
    | some v => v
    | none => (lookupA mapping "fallback").getD ""

/-- `RuleLoader.generate_rule_url`: resolve the URL of one rule for one
proxy tool.  Returns `none` when the category is missing or empty, when
it is absent from the category table, or when its URL template is
empty; otherwise substitutes the mapped tool alias, the cleaned remote
file stem and (when the template holds a filetype placeholder) the
mapped filetype into the template and returns the result. -/
def generate_rule_url (L : LinkBase) (rule_config : RuleConfig)
    (proxy_tool : String) : Option String :=
  match rule_config.category with
  | none => none
  | some category =>
    if category == "" then none
    else
      match lookupA L.categories category with
      | none => none
      | some url_template =>
        if url_template == "" then none
        else
          let mapped_tool := get_tool_type_mapping L category proxy_tool
          let remotefile := rule_config.remotefile
          let clean0 :=
            if startsWithL ['.', '/'] remotefile.data then
              String.mk (remotefile.data.drop 2)
            else remotefile
          let hasFiletype := containsSeq "{filetype}".data url_template.data
          let clean :=
            if hasFiletype && clean0.data.contains '.' then
              String.mk (dropAfterLastDot clean0.data)
            else clean0
          let filetype :=
            if hasFiletype then get_filetype_mapping L category proxy_tool else ""
          some (replaceStr
                 (replaceStr (replaceStr url_template "{proxytools}" mapped_tool)
                   "{remotefile}" clean)
                 "{filetype}" filetype)

/-- Concrete link-base tables used to evaluate `generate_rule_url` on
closed inputs: one category `"X"` whose template holds a filetype
placeholder, with empty tool and filetype mapping tables. -/
def cxLinkBase : LinkBase :=
  { categories := [("X", "https://e/{proxytools}/{remotefile}.{filetype}")],
    toolsMapping := [],
    filetypeMapping := [] }

example :
    generate_rule_url cxLinkBase { category := some "X", remotefile := "foo.list" }
      "Mihomo" = some "https://e/Mihomo/foo." := by decide
example :
    generate_rule_url cxLinkBase { category := some "Y", remotefile := "foo.list" }
      "Mihomo" = none := by decide

/-! ## Helper lemmas -/

/-- Every region name of the static table differs from the sentinel. -/
theorem countries_meta_not_other : ∀ m ∈ COUNTRIES_META, m.name ≠ "其他" := by decide

/-- Total count stored in an aggregation mapping. -/
def sumCounts (m : List (String × Nat)) : Nat := (m.map Prod.snd).sum

theorem sumCounts_bump (m : List (String × Nat)) (k : String) :
    sumCounts (bumpCount m k) = sumCounts m + 1 := by
  induction m with
  | nil => simp [bumpCount, sumCounts]
  | cons p t ih =>
    obtain ⟨k2, v⟩ := p
    by_cases h : (k2 == k) = true
    · simp [bumpCount, h, sumCounts]
      omega
    · simp only [Bool.not_eq_true] at h
      simp [bumpCount, h, sumCounts] at ih ⊢
      omega

/-- The classifier yields a value exactly when the ISP filter does not
fire. -/
theorem identify_country_isSome (name : String) (flag : Bool) :
    (identify_country name flag).isSome
      = !(flag && regexSearch ISP_EXCLUDE_PATTERN name) := by
  unfold identify_country
  by_cases h : (flag && regexSearch ISP_EXCLUDE_PATTERN name) = true
  · simp [h]
  · simp only [Bool.not_eq_true] at h
    simp only [h, Bool.false_eq_true, if_false, Bool.not_false]
    cases COUNTRIES_META.find? (fun m => regexSearch m.pattern name) <;> simp

theorem parse_nodes_fold (flag : Bool) (names : List String) :
    ∀ acc : List (String × Nat),
      sumCounts (names.foldl
        (fun acc n =>
          match identify_country n flag with
          | none => acc
          | some c => bumpCount acc c) acc)
      = sumCounts acc + names.countP (fun n => (identify_country n flag).isSome) := by
  induction names with
  | nil => intro acc; simp
  | cons n t ih =>
    intro acc
    rw [List.foldl_cons, List.countP_cons]
    cases h : identify_country n flag with
    | none => rw [ih]; simp
    | some c => rw [ih, sumCounts_bump]; simp; omega

/-! ## Claim theorems -/

/-- C10: for every node list, with `excludeISP = true` the sum of all
counts in the mapping returned by `parse_nodes` (the `"其他"` bucket
included) equals the number of names that do not match the
ISP-exclusion pattern, and with `excludeISP = false` it equals the
total length of the list. -/
theorem aggregate_count_sum (names : List String) :
    sumCounts (parse_nodes names true)
      = (names.filter (fun n => !(regexSearch ISP_EXCLUDE_PATTERN n))).length
    ∧ sumCounts (parse_nodes names false) = names.length := by
  constructor
  · rw [parse_nodes, parse_nodes_fold true names []]
    rw [← List.countP_eq_length_filter]
    simp only [sumCounts, List.map_nil, List.sum_nil, Nat.zero_add]
    apply List.countP_congr
    intro n _
    rw [identify_country_isSome]
    simp
  · rw [parse_nodes, parse_nodes_fold false names []]
    simp only [sumCounts, List.map_nil, List.sum_nil, Nat.zero_add]
    have hc : List.countP (fun n => (identify_country n false).isSome) names
        = List.countP (fun _ => true) names := by
      apply List.countP_congr
      intro n _
      rw [identify_country_isSome]
      simp
    rw [hc, List.countP_true]

/-- C3: a node name matching the ISP-exclusion pattern is always
excluded (the classifier returns the excluded outcome `none`) when
`exclude_isp = true`, regardless of whether it also matches a region
pattern. -/
theorem isp_exclusion_precedence (name : String)
    (h : regexSearch ISP_EXCLUDE_PATTERN name = true) :
    identify_country name true = none := by
  simp [identify_country, h]

/-- Witness for C3: `"香港家宽落地 01"` matches the ISP-exclusion
pattern and the Hong Kong region pattern, and is classified as
excluded. -/
theorem isp_exclusion_precedence_witness :
    regexSearch ISP_EXCLUDE_PATTERN "香港家宽落地 01" = true
    ∧ regexSearch "(?i)香港|港|HK|hk|Hong Kong|HongKong|hongkong|🇭🇰" "香港家宽落地 01" = true
    ∧ identify_country "香港家宽落地 01" true = none :=
  ⟨by decide, by decide, isp_exclusion_precedence "香港家宽落地 01" (by decide)⟩

/-- C6: classification is total — for every node name and every value
of the flag, the classifier returns exactly one of the excluded
outcome, the name of one region of the static table (never the
sentinel), or the sentinel `"其他"`. -/
theorem classify_totality (name : String) (flag : Bool) :
    identify_country name flag = none
    ∨ (∃ m, m ∈ COUNTRIES_META ∧ identify_country name flag = some m.name
          ∧ m.name ≠ "其他")
    ∨ identify_country name flag = some "其他" := by
  unfold identify_country
  by_cases h : (flag && regexSearch ISP_EXCLUDE_PATTERN name) = true
  · simp [h]
  · simp only [Bool.not_eq_true] at h
    simp only [h, Bool.false_eq_true, if_false]
    cases hf : COUNTRIES_META.find? (fun m => regexSearch m.pattern name) with
    | none => exact Or.inr (Or.inr rfl)
    | some m =>
      have hm : m ∈ COUNTRIES_META := List.mem_of_find?_eq_some hf
      exact Or.inr (Or.inl ⟨m, hm, rfl, countries_meta_not_other m hm⟩)

/-- `List.find?` returns the element at the first index whose predicate
holds. -/
theorem find_eq_get_of_first {α : Type} (p : α → Bool) (l : List α) (i : Nat)
    (hi : i < l.length) (hp : p (l.get ⟨i, hi⟩) = true)
    (hbefore : (l.take i).all (fun a => !(p a)) = true) :
    l.find? p = some (l.get ⟨i, hi⟩) := by
  induction l generalizing i with
  | nil => simp at hi
  | cons a t ih =>
    cases i with
    | zero =>
      simp only [List.get] at hp
      exact List.find?_cons_of_pos t hp
    | succ j =>
      simp only [List.take_succ_cons, List.all_cons, Bool.and_eq_true] at hbefore
      have ha : p a = false := by
        have := hbefore.1
        simp at this
        exact this
      rw [List.find?_cons_of_neg t (by simp [ha])]
      exact ih j (Nat.lt_of_succ_lt_succ hi) hp hbefore.2

/-- C4: first matching region pattern wins.  If the region at position
`i` of the static table matches the node name, no earlier region
matches it, and the ISP exclusion does not fire (the flag is off or the
exclusion pattern does not match), the classifier returns that region's
name — in particular, when several region patterns match, the one
earliest in the table wins. -/
theorem region_priority_first_match (name : String) (flag : Bool) (i : Nat)
    (hi : i < COUNTRIES_META.length)
    (hmatch : regexSearch (COUNTRIES_META.get ⟨i, hi⟩).pattern name = true)
    (hbefore : (COUNTRIES_META.take i).all
        (fun m => !(regexSearch m.pattern name)) = true)
    (hnoexc : flag = false ∨ regexSearch ISP_EXCLUDE_PATTERN name = false) :
    identify_country name flag = some (COUNTRIES_META.get ⟨i, hi⟩).name := by
  have hcond : (flag && regexSearch ISP_EXCLUDE_PATTERN name) = false := by
    rcases hnoexc with h | h <;> simp [h]
  unfold identify_country
  simp only [hcond, Bool.false_eq_true, if_false]
  rw [find_eq_get_of_first (fun m => regexSearch m.pattern name) COUNTRIES_META i hi
    hmatch hbefore]

/-- Witness for C4: `"美国 JP 01"` matches both the United-States
pattern (position 2) and the Japan pattern (position 3); classification
returns the earlier region `"美国"`. -/
theorem region_priority_first_match_witness :
    (2 < COUNTRIES_META.length)
    ∧ regexSearch "(?i)美国|美|US|United States|🇺🇸" "美国 JP 01" = true
    ∧ regexSearch "(?i)日本|川日|东京|大阪|泉日|埼玉|沪日|深日|JP|Japan|🇯🇵" "美国 JP 01" = true
    ∧ identify_country "美国 JP 01" true = some "美国" :=
  ⟨by decide, by decide, by decide,
    region_priority_first_match "美国 JP 01" true 2 (by decide) (by decide) (by decide)
      (Or.inr (by decide))⟩

/-- Summaries built from table entries survive the not-"other" filter. -/
theorem filter_other_map (counts : List (String × Nat)) (ll : List CountryMeta)
    (hll : ∀ x ∈ ll, x ∈ COUNTRIES_META) :
    ((ll.map (toInfo counts)).filter (fun i => i.name != "其他"))
      = ll.map (toInfo counts) := by
  apply List.filter_eq_self.mpr
  intro a ha
  obtain ⟨mm, hmm, rfl⟩ := List.mem_map.mp ha
  simpa [toInfo] using countries_meta_not_other mm (hll mm hmm)

/-- The named (non-"other") part of a summary list is the table filtered
by the threshold, mapped to summaries. -/
theorem gcil_filter_named (names : List String) (ex : Bool) (m : Nat) :
    (get_country_info_list names ex m).filter (fun i => i.name != "其他")
    = (COUNTRIES_META.filter
        (fun mm => decide (m ≤ countGet (parse_nodes names ex) mm.name))).map
        (toInfo (parse_nodes names ex)) := by
  have hmem : ∀ x ∈ COUNTRIES_META.filter
      (fun mm => decide (m ≤ countGet (parse_nodes names ex) mm.name)), x ∈ COUNTRIES_META :=
    fun x hx => (List.mem_filter.mp hx).1
  by_cases h : 0 < countGet (parse_nodes names ex) "其他"
  · simp only [get_country_info_list, h, if_true]
    rw [List.filter_append, filter_other_map _ _ hmem]
    simp
  · simp only [get_country_info_list, h, if_false]
    exact filter_other_map _ _ hmem

/-- A summary list holds an "other" entry exactly when the "other"
count is positive. -/
theorem gcil_any_other (names : List String) (ex : Bool) (m : Nat) :
    ((get_country_info_list names ex m).any (fun i => i.name == "其他"))
    = decide (0 < countGet (parse_nodes names ex) "其他") := by
  have hnamed : ((COUNTRIES_META.filter
      (fun mm => decide (m ≤ countGet (parse_nodes names ex) mm.name))).map
      (toInfo (parse_nodes names ex))).any (fun i => i.name == "其他") = false := by
    rw [List.any_eq_false]
    intro i hi
    obtain ⟨mm, hmm, rfl⟩ := List.mem_map.mp hi
    simpa [toInfo] using countries_meta_not_other mm (List.mem_filter.mp hmm).1
  by_cases h : 0 < countGet (parse_nodes names ex) "其他"
  · simp only [get_country_info_list, h, if_true]
    rw [List.any_append, hnamed]
    simp [h]
  · simp only [get_country_info_list, h, if_false]
    rw [hnamed]
    simp [h]

/-- C5: raising the threshold never lengthens the named-region part of
the summary list, and the presence of the "other" summary is
independent of the threshold — it is governed only by the "other"
count being positive. -/
theorem threshold_monotone_other_independent (names : List String) (ex : Bool)
    (m1 m2 : Nat) (h : m1 ≤ m2) :
    ((get_country_info_list names ex m2).filter (fun i => i.name != "其他")).length
      ≤ ((get_country_info_list names ex m1).filter (fun i => i.name != "其他")).length
    ∧ ((get_country_info_list names ex m2).any (fun i => i.name == "其他"))
        = ((get_country_info_list names ex m1).any (fun i => i.name == "其他"))
    ∧ (((get_country_info_list names ex m1).any (fun i => i.name == "其他")) = true
        ↔ 0 < countGet (parse_nodes names ex) "其他") := by
  refine ⟨?_, ?_, ?_⟩
  · rw [gcil_filter_named, gcil_filter_named, List.length_map, List.length_map,
      ← List.countP_eq_length_filter, ← List.countP_eq_length_filter]
    apply List.countP_mono_left
    intro x _ hx
    simp only [decide_eq_true_eq] at hx ⊢
    omega
  · rw [gcil_any_other, gcil_any_other]
  · rw [gcil_any_other]
    simp

/-- Witness for C5: two Hong-Kong nodes and one unclassifiable node,
thresholds 1 ≤ 3. -/
theorem threshold_monotone_other_independent_witness :
    (1 ≤ 3)
    ∧ (((get_country_info_list ["香港 01", "香港 02", "XYZ 01"] true 3).filter
          (fun i => i.name != "其他")).length
        ≤ ((get_country_info_list ["香港 01", "香港 02", "XYZ 01"] true 1).filter
          (fun i => i.name != "其他")).length
      ∧ ((get_country_info_list ["香港 01", "香港 02", "XYZ 01"] true 3).any
          (fun i => i.name == "其他"))
          = ((get_country_info_list ["香港 01", "香港 02", "XYZ 01"] true 1).any
            (fun i => i.name == "其他"))
      ∧ (((get_country_info_list ["香港 01", "香港 02", "XYZ 01"] true 1).any
          (fun i => i.name == "其他")) = true
          ↔ 0 < countGet (parse_nodes ["香港 01", "香港 02", "XYZ 01"] true) "其他")) :=
  ⟨by decide,
    threshold_monotone_other_independent ["香港 01", "香港 02", "XYZ 01"] true 1 3
      (by decide)⟩

/-- C1: for every region-group-name list the policy catalog holds
exactly three media groups named "US Media", "Taiwan Media" and
"Japan Media"; each one's member list is the 4-element short-circuit
list `[region-group, 选择代理, 手动选择, 直接连接]` when the
corresponding region group name occurs among the inputs, and the
canonical shared list `选择代理 :: names ++ [手动选择, 直接连接]`
otherwise. -/
theorem policy_media_conditional_swap (names : List String) :
    ((generate_policy_groups names).filter
        (fun g => g.name == "US Media" || g.name == "Taiwan Media"
          || g.name == "Japan Media")).length = 3
    ∧ ((generate_policy_groups names).filter (fun g => g.name == "US Media")).map
        ProxyGroup.proxies
      = [some (if names.contains "美国节点"
          then ["美国节点", "选择代理", "手动选择", "直接连接"]
          else "选择代理" :: names ++ ["手动选择", "直接连接"])]
    ∧ ((generate_policy_groups names).filter (fun g => g.name == "Taiwan Media")).map
        ProxyGroup.proxies
      = [some (if names.contains "台湾节点"
          then ["台湾节点", "选择代理", "手动选择", "直接连接"]
          else "选择代理" :: names ++ ["手动选择", "直接连接"])]
    ∧ ((generate_policy_groups names).filter (fun g => g.name == "Japan Media")).map
        ProxyGroup.proxies
      = [some (if names.contains "日本节点"
          then ["日本节点", "选择代理", "手动选择", "直接连接"]
          else "选择代理" :: names ++ ["手动选择", "直接连接"])] := by
  refine ⟨?_, ?_, ?_, ?_⟩ <;>
  (by_cases hus : "美国节点" ∈ names <;>
   by_cases htw : "台湾节点" ∈ names <;>
   by_cases hjp : "日本节点" ∈ names <;>
   simp [generate_policy_groups, mkSelect, hus, htw, hjp])

/-- Counterexample for C8 as stated: with no region groups present the
Apple and Microsoft member lists are `[直接连接, 选择代理, 手动选择]`,
which differs from the claimed `[direct] ++ regions ++ [manual]` list —
the primary selector `选择代理` sits between the direct group and the
region groups. -/
theorem platform_vendor_direct_first_cx :
    ((generate_policy_groups []).filter (fun g => g.name == "Apple")).map
        ProxyGroup.proxies = [some ["直接连接", "选择代理", "手动选择"]]
    ∧ ((generate_policy_groups []).filter (fun g => g.name == "Microsoft")).map
        ProxyGroup.proxies = [some ["直接连接", "选择代理", "手动选择"]]
    ∧ (["直接连接", "选择代理", "手动选择"]
        ≠ ["直接连接"] ++ ([] : List String) ++ ["手动选择"]) := by
  refine ⟨by decide, by decide, by decide⟩

/-- C8 (amended): the two platform-vendor groups Apple and Microsoft
always use the direct-first member list
`[直接连接, 选择代理] ++ names ++ [手动选择]` — the direct group first,
then the primary selector, then every region group in priority order,
then the manual group — independent of which regions are present. -/
theorem platform_vendor_member_lists (names : List String) :
    ((generate_policy_groups names).filter (fun g => g.name == "Apple")).map
        ProxyGroup.proxies
      = [some (["直接连接", "选择代理"] ++ names ++ ["手动选择"])]
    ∧ ((generate_policy_groups names).filter (fun g => g.name == "Microsoft")).map
        ProxyGroup.proxies
      = [some (["直接连接", "选择代理"] ++ names ++ ["手动选择"])] := by
  constructor <;>
  (by_cases hus : "美国节点" ∈ names <;>
   by_cases htw : "台湾节点" ∈ names <;>
   by_cases hjp : "日本节点" ∈ names <;>
   simp [generate_policy_groups, mkSelect, hus, htw, hjp])

/-- C2: with an empty node list the generation pipeline still composes
a full, non-empty proxy-group catalog, and its structure (group names,
kinds and positions) is exactly that of composing from the default five
regions at count 0 plus "other"; no error path exists (the computation
is total and yields a concrete list). -/
theorem compose_empty_structural_default :
    mihomo_proxy_groups [] ≠ []
    ∧ (mihomo_proxy_groups []).map (fun g => (g.name, g.type))
        = (compose_groups mihomo_default_country_info).map (fun g => (g.name, g.type)) :=
  ⟨by decide, by decide⟩

/-- Counterexample for C9 as stated: on the spec's English node names
the aggregation yields two summaries — "Tokyo 01" and
"Family Broadband Landing 01" match neither the ISP-exclusion pattern
nor any region pattern (those patterns use the Chinese keywords 东京,
家宽, 落地, …), so both land in the "other" bucket, which therefore
appears with count 2 — not the claimed single-entry list `[香港:2]`. -/
theorem aggregate_scenario_cx :
    identify_country "Tokyo 01" true = some "其他"
    ∧ identify_country "Family Broadband Landing 01" true = some "其他"
    ∧ (get_country_info_list
        ["Hong Kong 01", "Hong Kong 02", "Tokyo 01", "Family Broadband Landing 01"]
        true 2).map (fun i => (i.name, i.count)) = [("香港", 2), ("其他", 2)]
    ∧ ([("香港", 2), ("其他", 2)] : List (String × Nat)) ≠ [("香港", 2)] :=
  ⟨by decide, by decide, by decide, by decide⟩

/-- C9 (amended): the scenario holds for the Chinese spellings of the
same node names used by the source's own test data — `东京` for Tokyo
and `家宽落地` for a family-broadband landing node.  With threshold 2
and `excludeISP = true`, the landing node is excluded, Japan reaches
only count 1 and is dropped by the threshold, the "other" count is 0,
and the final summary list is exactly `[香港:2]`. -/
theorem aggregate_scenario_chinese :
    identify_country "香港家宽落地 01" true = none
    ∧ parse_nodes ["香港 01", "香港 02", "东京 01", "香港家宽落地 01"] true
        = [("香港", 2), ("日本", 1)]
    ∧ (get_country_info_list ["香港 01", "香港 02", "东京 01", "香港家宽落地 01"] true 2).map
        (fun i => (i.name, i.count)) = [("香港", 2)] :=
  ⟨by decide, by decide, by decide⟩

/-- Counterexample for C7 as stated: with category `"X"` mapped to a
template holding a `filetype` placeholder and an empty filetype mapping
table, the filetype substitutes to the empty string, yet the resolver
returns the substituted (malformed) URL rather than `none`. -/
theorem rule_url_empty_substitution_cx :
    containsSeq "{filetype}".data
        "https://e/{proxytools}/{remotefile}.{filetype}".data = true
    ∧ get_filetype_mapping cxLinkBase "X" "Mihomo" = ""
    ∧ generate_rule_url cxLinkBase { category := some "X", remotefile := "foo.list" }
        "Mihomo" = some "https://e/Mihomo/foo."
    ∧ some "https://e/Mihomo/foo." ≠ (none : Option String) :=
  ⟨by decide, by decide, by decide, by decide⟩

/-- C7 (amended): `generate_rule_url` returns `none` exactly when the
rule's category is missing or empty, absent from the category table, or
mapped to an empty URL template; in particular a category not in the
table yields `none` for every tool argument.  A substitution producing
an empty string for a placeholder does not cause `none` — the
substituted URL is returned as is. -/
theorem rule_url_none_iff (L : LinkBase) (cfg : RuleConfig) (tool : String) :
    generate_rule_url L cfg tool = none
    ↔ (cfg.category = none
        ∨ ∃ c, cfg.category = some c
            ∧ (c = "" ∨ lookupA L.categories c = none
                ∨ lookupA L.categories c = some "")) := by
  cases hc : cfg.category with
  | none => simp [generate_rule_url, hc]
  | some c =>
    simp only [generate_rule_url, hc]
    by_cases hce : c = ""
    · simp [hce]
    · have hb : (c == "") = false := by simpa using hce
      simp only [hb, Bool.false_eq_true, if_false]
      cases hlook : lookupA L.categories c with
      | none => simp [hce, hlook]
      | some tmpl =>
        by_cases hte : tmpl = ""
        · simp [hlook, hte, hce]
        · have htb : (tmpl == "") = false := by simpa using hte
          simp [htb, hlook, hce, hte]
